import Mathlib

/-!
Verification of the OpenAI adapter service
(`packages/bytebot-agent/src/openai/openai.service.ts`).

The service is a format-translation adapter between an internal
content-block representation of chat messages and the OpenAI Responses
API, with a Chat Completions fallback path.  This file gives a shallow
embedding of the data model and the three operations the specification
talks about — `formatMessagesForOpenAI`, `formatOpenAIResponse` and
`generateMessage` — and proves the specified properties about them.

Host-language JSON values are modelled by an explicit inductive `Json`.
A JavaScript string that is fed to `JSON.parse` is modelled by
`JsonString`: either text that is valid JSON (represented by the value
it parses to, exploiting the host guarantee that `JSON.parse` inverts
`JSON.stringify`) or text that is not valid JSON.  The two network
calls of `generateMessage` are modelled by an `Oracle` holding the
provider results, and the function returns the list of calls it issued
so that call-count properties can be stated.
-/

namespace BytebotOpenAI

/-- Model of a JavaScript JSON value (numbers restricted to integers;
no claim inspects numeric values). -/
inductive Json where
  | null
  | bool (b : Bool)
  | num (n : Int)
  | str (s : String)
  | arr (elems : List Json)
  | obj (fields : List (String × Json))

/-- Escapes one character the way JSON string serialization does. -/
def Json.esc (c : Char) : String :=
  if c = '\\' then "\\\\"
  else if c = '"' then "\\\""
  else if c = '\n' then "\\n"
  else if c = '\t' then "\\t"
  else if c = '\r' then "\\r"
  else String.singleton c

/-- Serializes a string literal the way JSON does. -/
def Json.renderStr (s : String) : String :=
  "\"" ++ String.join (s.data.map Json.esc) ++ "\""

/-- Models the compact serialization `JSON.stringify(v)` of the host. -/
def Json.render : Json → String
  | .null => "null"
  | .bool true => "true"
  | .bool false => "false"
  | .num n => toString n
  | .str s => Json.renderStr s
  | .arr elems =>
    "[" ++ String.intercalate "," (elems.attach.map fun e => Json.render e.1) ++ "]"
  | .obj fields =>
    "\x7b" ++ String.intercalate ","
      (fields.attach.map fun f => Json.renderStr f.1.1 ++ ":" ++ Json.render f.1.2) ++ "\x7d"
decreasing_by
all_goals simp_wf
· have h := List.sizeOf_lt_of_mem e.2
  omega
· have h := List.sizeOf_lt_of_mem f.2
  have h2 : sizeOf f.1.2 < sizeOf f.1 := by
    obtain ⟨⟨a, b⟩, hf⟩ := f
    simp
  omega

/-- Models the indented serialization `JSON.stringify(v, null, 2)` of the
host, carrying the indentation accumulated so far. -/
def Json.render2Go (ind : String) : Json → String
  | .arr [] => "[]"
  | .arr elems =>
    "[\n" ++ String.intercalate ",\n"
      (elems.attach.map fun e => ind ++ "  " ++ Json.render2Go (ind ++ "  ") e.1)
      ++ "\n" ++ ind ++ "]"
  | .obj [] => "\x7b\x7d"
  | .obj fields =>
    "\x7b\n" ++ String.intercalate ",\n"
      (fields.attach.map fun f =>
        ind ++ "  " ++ Json.renderStr f.1.1 ++ ": " ++ Json.render2Go (ind ++ "  ") f.1.2)
      ++ "\n" ++ ind ++ "\x7d"
  | j => Json.render j
termination_by j => sizeOf j
decreasing_by
all_goals simp_wf
· have h := List.sizeOf_lt_of_mem e.2
  omega
· have h := List.sizeOf_lt_of_mem f.2
  have h2 : sizeOf f.1.2 < sizeOf f.1 := by
    obtain ⟨⟨a, b⟩, hf⟩ := f
    simp
  omega

/-- Models `JSON.stringify(v, null, 2)`. -/
def Json.render2 (j : Json) : String := Json.render2Go "" j

/-- Models a JavaScript string that will be handed to `JSON.parse`:
either text that is valid JSON, represented by the value it parses to
(the host guarantees `JSON.parse` inverts `JSON.stringify`), or text
that is not valid JSON, kept verbatim. -/
inductive JsonString where
  | valid (j : Json)
  | invalid (s : String)

/-- Models the host `JSON.stringify` on a value that is then carried as
a string: the resulting text is valid JSON denoting the same value. -/
def jsonStringify (j : Json) : JsonString := .valid j

/-- Models the host `JSON.parse`: succeeds exactly on valid JSON text,
throws (here: returns the offending text as the error) otherwise. -/
def jsonParse : JsonString → Except String Json
  | .valid j => .ok j
  | .invalid s => .error s

/-- JavaScript truthiness of a string carried as `JsonString`: the
empty string is the only falsy string, and valid JSON text is never
empty. -/
def jsonStringTruthy : JsonString → Bool
  | .valid _ => true
  | .invalid s => s != ""

/-- JavaScript truthiness of an optional string (`undefined` and the
empty string are falsy). -/
def optStrTruthy : Option String → Bool
  | some s => s != ""
  | none => false

/-- Models the JavaScript `a || b` idiom on an optional string with a
string default: a present non-empty string wins, otherwise the default. -/
def jsOrS : Option String → String → String
  | some s, d => if s = "" then d else s
  | none, d => d

/-- Models the JavaScript `x || 0` idiom on an optional number. -/
def jsOrNat : Option Nat → Nat
  | some n => n
  | none => 0

/-- Decides whether one character list occurs as a contiguous
sub-sequence of another. -/
def subListSearch (needle : List Char) : List Char → Bool
  | [] => needle.isEmpty
  | c :: rest => needle.isPrefixOf (c :: rest) || subListSearch needle rest

/-- Models `String.prototype.includes`. -/
def strIncludes (hay needle : String) : Bool :=
  subListSearch needle.data hay.data

/-- ASCII-style lowercasing, modelling the case-insensitive regular
expression flag. -/
def lowerStr (s : String) : String := String.mk (s.data.map Char.toLower)

/-- Role of a stored message (the Prisma `Role` enum; its schema is not
under src/, the service compares against `Role.USER` and
`Role.ASSISTANT`). -/
inductive Role where
  | USER
  | ASSISTANT
deriving DecidableEq

/-- Internal typed content block of a stored message (the
`MessageContentBlock` union of the shared package; the service matches
on the `Text`, `ToolUse`, `Thinking`, `ToolResult`, `Image` and
user-action variants and serializes anything else).  `unknown` carries
the JSON value of a block of any other type. -/
inductive MessageContentBlock where
  | text (text : String)
  | toolUse (id : String) (name : Option String) (input : Json)
  | toolResult (tool_use_id : String) (content : List MessageContentBlock)
  | thinking (thinking : String) (signature : String)
  | image (media_type : String) (data : String)
  | userAction (content : List MessageContentBlock)
  | unknown (payload : Json)

/-- A stored conversation message: a role and its typed content blocks. -/
structure Message where
  role : Role
  content : List MessageContentBlock

/-- Modelled from the spec: the shared package's
`isUserActionContentBlock` (the `@bytebot/shared` sources are not under
src/); it recognises the user-action block variant. -/
def isUserActionContentBlock : MessageContentBlock → Bool
  | .userAction _ => true
  | _ => false

/-- Modelled from the spec: the `content` field read off a user-action
(or tool-result) block by the flat-map at the head of the user-action
branch; blocks without a `content` field contribute nothing. -/
def userActionContent : MessageContentBlock → List MessageContentBlock
  | .userAction c => c
  | .toolResult _ c => c
  | _ => []

/-- JSON value of an internal content block, for the places where the
service calls `JSON.stringify` on a whole block.  Modelled from the
spec: the field layout follows the shared content-block schema, which
is not under src/; no claim depends on the exact layout. -/
def blockToJson : MessageContentBlock → Json
  | .text t => .obj [("type", .str "text"), ("text", .str t)]
  | .toolUse id nm input =>
    .obj [("type", .str "tool_use"), ("id", .str id),
          ("name", match nm with | some n => .str n | none => .null),
          ("input", input)]
  | .toolResult tuid content =>
    .obj [("type", .str "tool_result"), ("tool_use_id", .str tuid),
          ("content", .arr (content.attach.map fun c => blockToJson c.1))]
  | .thinking th sig =>
    .obj [("type", .str "thinking"), ("thinking", .str th), ("signature", .str sig)]
  | .image mt d =>
    .obj [("type", .str "image"),
          ("source", .obj [("type", .str "base64"), ("media_type", .str mt),
                           ("data", .str d)])]
  | .userAction content =>
    .obj [("type", .str "user_action"),
          ("content", .arr (content.attach.map fun c => blockToJson c.1))]
  | .unknown payload => payload
decreasing_by
all_goals simp_wf
· have h := List.sizeOf_lt_of_mem c.2
  omega
· have h := List.sizeOf_lt_of_mem c.2
  omega

/-- Content part of a Responses-API request `message` item. -/
inductive InputContentPart where
  | inputText (text : String)
  | inputImage (detail : String) (image_url : String)
  | outputText (text : String)

/-- Responses-API request input item, as built by
`formatMessagesForOpenAI`. -/
inductive ResponseInputItem where
  | message (role : String) (content : List InputContentPart)
  | functionCall (call_id : String) (name : Option String) (arguments : JsonString)
  | reasoning (id : String) (encrypted_content : String) (summary : List String)
  | functionCallOutput (call_id : String) (output : String)

/-- Content part of a Responses-API output `message` item: the service
distinguishes parts carrying a `text` field from parts carrying a
`refusal` field. -/
inductive OutputContentPart where
  | outputText (text : String)
  | refusal (refusal : String)

/-- Responses-API response output item, as consumed by
`formatOpenAIResponse`.  Items the service treats by serializing them
carry their JSON value; `encrypted_content` is an optional dynamic
field (the service reads it off search/computer-call items too). -/
inductive ResponseOutputItem where
  | message (content : List OutputContentPart)
  | functionCall (call_id : String) (name : Option String) (arguments : JsonString)
  | fileSearchCall (id : String) (encrypted_content : Option String)
  | webSearchCall (id : String) (encrypted_content : Option String)
  | computerCall (id : String) (encrypted_content : Option String)
  | reasoning (id : String) (encrypted_content : Option String)
  | imageGenerationCall (payload : Json)
  | codeInterpreterCall (payload : Json)
  | localShellCall (payload : Json)
  | mcpCall (payload : Json)
  | mcpListTools (payload : Json)
  | mcpApprovalRequest (payload : Json)
  | unknown (payload : Json)

/-- Usage counts reported by the Responses API (each possibly absent). -/
structure ResponsesUsage where
  input_tokens : Option Nat
  output_tokens : Option Nat
  total_tokens : Option Nat

/-- Responses-API response, restricted to the fields the service reads. -/
structure ResponsesResponse where
  output : List ResponseOutputItem
  usage : Option ResponsesUsage

/-- One content part of a Chat Completions message content array:
either a plain string or an object with an optional `text` field. -/
inductive ChatContentPart where
  | str (s : String)
  | obj (text : Option String)

/-- Content of a Chat Completions message: a string, an array of parts,
or some other truthy value (which yields no text). -/
inductive ChatContent where
  | str (s : String)
  | parts (ps : List ChatContentPart)
  | other

/-- JavaScript truthiness of a Chat Completions content value. -/
def chatContentTruthy : ChatContent → Bool
  | .str s => s != ""
  | .parts _ => true
  | .other => true

/-- The `function` object of a Chat Completions tool call. -/
structure ChatFunction where
  name : Option String
  arguments : Option JsonString

/-- A Chat Completions tool call (all fields optionally absent, matching
the defensive optional chaining in the fallback path). -/
structure ChatToolCall where
  id : Option String
  function : Option ChatFunction

/-- A Chat Completions response message. -/
structure ChatMessage where
  content : Option ChatContent
  tool_calls : Option (List ChatToolCall)

/-- A Chat Completions response choice. -/
structure ChatChoice where
  message : Option ChatMessage

/-- Usage counts reported by the Chat Completions API. -/
structure ChatUsage where
  prompt_tokens : Option Nat
  completion_tokens : Option Nat
  total_tokens : Option Nat

/-- A Chat Completions response, restricted to the fields the service
reads. -/
structure ChatCompletion where
  choices : Option (List ChatChoice)
  usage : Option ChatUsage

/-- Token usage reported back to the caller. -/
structure TokenUsage where
  inputTokens : Nat
  outputTokens : Nat
  totalTokens : Nat

/-- The `BytebotAgentResponse` returned by `generateMessage`. -/
structure BytebotAgentResponse where
  contentBlocks : List MessageContentBlock
  tokenUsage : TokenUsage

/-- The error value caught by the catch block of `generateMessage`:
an optional HTTP status, an optional message string, and whether the
value is an `APIUserAbortError` instance. -/
structure JsError where
  status : Option Nat
  message : Option String
  isAbort : Bool

/-- Models the `SyntaxError` thrown by the host `JSON.parse` on invalid
JSON text: no HTTP status and not an abort error; the message is
modelled abstractly from the offending text. -/
def syntaxError (s : String) : JsError :=
  { status := none, message := some ("Unexpected token in JSON: " ++ s), isAbort := false }

/-- Fields of the `OpenAIService` instance that `generateMessage` reads
(via `configService.get`); the service never writes to them. -/
structure ServiceState where
  apiBase : Option String
  baseUrl : Option String
  apiHost : Option String

/-- Data-URL string built for an image block
(`data:<media_type>;base64,<data>`). -/
def dataUrl (media_type data : String) : String :=
  "data:" ++ media_type ++ ";base64," ++ data

/-- Text built for a computer tool-use block inside a user-action
message (`User performed action: <name>` then the pretty-printed
input). -/
def computerActionText (name : Option String) (input : Json) : String :=
  "User performed action: " ++ (match name with | some n => n | none => "undefined")
    ++ "\n" ++ Json.render2 input

/-- Loop body of the user-action branch of `formatMessagesForOpenAI`
(lines 220-245): a computer tool-use block becomes a user text item, an
image block becomes a user image item, anything else is skipped.  The
shared predicates `isComputerToolUseContentBlock` and
`isImageContentBlock` are modelled as the corresponding constructor
tests (their sources are not under src/). -/
def pushUserActionBlock (acc : List ResponseInputItem) (block : MessageContentBlock) :
    List ResponseInputItem :=
  match block with
  | .toolUse _ nm input =>
    acc ++ [.message "user" [.inputText (computerActionText nm input)]]
  | .image mt d =>
    acc ++ [.message "user" [.inputImage "high" (dataUrl mt d)]]
  | _ => acc

/-- Loop body of the tool-result case of `formatMessagesForOpenAI`
(lines 304-331): each text part becomes a `function_call_output`, each
image part becomes a `function_call_output` reading `screenshot`
followed by a user image message. -/
def pushToolResultPart (tool_use_id : String) (acc : List ResponseInputItem)
    (part : MessageContentBlock) : List ResponseInputItem :=
  match part with
  | .text s => acc ++ [.functionCallOutput tool_use_id s]
  | .image mt d =>
    acc ++ [.functionCallOutput tool_use_id "screenshot",
            .message "user" [.inputImage "high" (dataUrl mt d)]]
  | _ => acc

/-- Switch body of the non-user-action branch of
`formatMessagesForOpenAI` (lines 248-347). -/
def pushBlock (role : Role) (acc : List ResponseInputItem)
    (block : MessageContentBlock) : List ResponseInputItem :=
  match block with
  | .text t =>
    if role = Role.USER then
      acc ++ [.message "user" [.inputText t]]
    else
      acc ++ [.message "assistant" [.outputText t]]
  | .toolUse id nm input =>
    if role = Role.ASSISTANT then
      acc ++ [.functionCall id nm (jsonStringify input)]
    else
      acc
  | .thinking th sig =>
    acc ++ [.reasoning sig th []]
  | .toolResult tuid parts =>
    parts.foldl (pushToolResultPart tuid) acc
  | b =>
    acc ++ [.message "user" [.inputText (Json.render (blockToJson b))]]

/-- Per-message body of `formatMessagesForOpenAI` (lines 211-350): a
message whose blocks are all user-action blocks is flattened and
handled by the user-action loop, any other message is handled block by
block. -/
def pushMessage (acc : List ResponseInputItem) (message : Message) :
    List ResponseInputItem :=
  if message.content.all isUserActionContentBlock then
    (message.content.flatMap userActionContent).foldl pushUserActionBlock acc
  else
    message.content.foldl (pushBlock message.role) acc

/-- Embeds `formatMessagesForOpenAI` (openai.service.ts lines 206-353):
converts stored messages into Responses-API request input items by
accumulating pushes over the messages. -/
def formatMessagesForOpenAI (messages : List Message) : List ResponseInputItem :=
  messages.foldl pushMessage []

/-- Inner loop body of the `message` case of `formatOpenAIResponse`
(lines 411-425). -/
def pushOutputPart (acc : List MessageContentBlock) (content : OutputContentPart) :
    List MessageContentBlock :=
  match content with
  | .outputText t => acc ++ [.text t]
  | .refusal r => acc ++ [.text ("Refusal: " ++ r)]

/-- Switch body of `formatOpenAIResponse` (lines 405-477); the
`function_call` case parses the arguments with the unguarded host
`JSON.parse`, so it can throw. -/
def pushOutputItem (acc : List MessageContentBlock) (item : ResponseOutputItem) :
    Except String (List MessageContentBlock) :=
  match item with
  | .message content => .ok (content.foldl pushOutputPart acc)
  | .functionCall cid nm args => do
    let input ← jsonParse args
    .ok (acc ++ [.toolUse cid nm input])
  | .fileSearchCall id ec | .webSearchCall id ec | .computerCall id ec
  | .reasoning id ec =>
    .ok (if optStrTruthy ec then acc ++ [.thinking (match ec with | some s => s | none => "") id] else acc)
  | .imageGenerationCall p | .codeInterpreterCall p | .localShellCall p
  | .mcpCall p | .mcpListTools p | .mcpApprovalRequest p =>
    .ok (acc ++ [.text (Json.render p)])
  | .unknown p => .ok (acc ++ [.text (Json.render p)])

/-- Embeds `formatOpenAIResponse` (openai.service.ts lines 400-481):
converts Responses-API output items back into internal content blocks;
an invalid `function_call` arguments string makes the whole conversion
throw. -/
def formatOpenAIResponse (response : List ResponseOutputItem) :
    Except String (List MessageContentBlock) :=
  response.foldlM pushOutputItem []

/-- Per-tool-call body of the fallback path of `generateMessage`
(lines 160-176): the arguments are parsed defensively (absent, empty or
invalid JSON yields the empty object), the block id falls back from
`tc.id` to the function name to the literal `tool_call`. -/
def chatToolCallBlock (tc : ChatToolCall) : MessageContentBlock :=
  let name := tc.function.bind ChatFunction.name
  let args : Json :=
    match tc.function.bind ChatFunction.arguments with
    | some a =>
      if jsonStringTruthy a then
        match jsonParse a with
        | .ok j => j
        | .error _ => Json.obj []
      else Json.obj []
    | none => Json.obj []
  .toolUse (jsOrS tc.id (jsOrS name "tool_call")) name args

/-- Text extracted from a Chat Completions content part
(lines 144-146). -/
def chatPartText : ChatContentPart → String
  | .str s => s
  | .obj t => jsOrS t ""

/-- The `finalText` computed by the fallback path (lines 139-149). -/
def chatFinalText : ChatContent → String
  | .str s => s
  | .parts ps =>
    String.intercalate "\n" ((ps.map chatPartText).filter (fun s => s != ""))
  | .other => ""

/-- The message picked out of a Chat Completions response
(`completion.choices?.[0]?.message`, lines 132-133). -/
def chatChoiceMessage (completion : ChatCompletion) : Option ChatMessage :=
  (completion.choices.bind List.head?).bind ChatChoice.message

/-- Text blocks produced by the fallback path (lines 138-156). -/
def chatTextBlocks (msg : Option ChatMessage) : List MessageContentBlock :=
  match msg with
  | none => []
  | some m =>
    match m.content with
    | none => []
    | some c =>
      if chatContentTruthy c then
        let finalText := chatFinalText c
        if finalText != "" then [.text finalText] else []
      else []

/-- Tool-use blocks produced by the fallback path (lines 159-177). -/
def chatToolBlocks (msg : Option ChatMessage) : List MessageContentBlock :=
  match msg with
  | none => []
  | some m =>
    match m.tool_calls with
    | none => []
    | some tcs => tcs.map chatToolCallBlock

/-- Content blocks of the fallback return value (lines 135-177). -/
def chatCompletionBlocks (completion : ChatCompletion) : List MessageContentBlock :=
  chatTextBlocks (chatChoiceMessage completion)
    ++ chatToolBlocks (chatChoiceMessage completion)

/-- The `BytebotAgentResponse` returned by the fallback path
(lines 179-186), with pass-through token usage. -/
def chatCompletionResponse (completion : ChatCompletion) : BytebotAgentResponse :=
  { contentBlocks := chatCompletionBlocks completion
    tokenUsage :=
      { inputTokens := jsOrNat (completion.usage.bind ChatUsage.prompt_tokens)
        outputTokens := jsOrNat (completion.usage.bind ChatUsage.completion_tokens)
        totalTokens := jsOrNat (completion.usage.bind ChatUsage.total_tokens) } }

/-- Outcome of one `generateMessage` invocation: a returned response, a
thrown `BytebotAgentInterrupt`, or a rethrown error. -/
inductive AgentOutcome where
  | success (resp : BytebotAgentResponse)
  | interrupt
  | failure (e : JsError)

/-- One network request issued by `generateMessage`; the primary call
carries the request it was built from. -/
inductive NetCall where
  | primaryCall (input : List ResponseInputItem) (instructions : String) (tools : Bool)
  | fallbackCall

/-- Recognises a primary (Responses-API) call in the call log. -/
def isPrimaryNetCall : NetCall → Bool
  | .primaryCall _ _ _ => true
  | .fallbackCall => false

/-- Recognises a fallback (Chat Completions) call in the call log. -/
def isFallbackNetCall : NetCall → Bool
  | .fallbackCall => true
  | .primaryCall _ _ _ => false

/-- The provider's behaviour for one invocation: what the primary call
and the fallback call would return if issued. -/
structure Oracle where
  primaryResult : Except JsError ResponsesResponse
  fallbackResult : Except JsError ChatCompletion

/-- The base URL computed inside the catch block (lines 97-100):
`OPENAI_API_BASE || OPENAI_BASE_URL || ''`. -/
def configBase (st : ServiceState) : String :=
  jsOrS st.apiBase (jsOrS st.baseUrl "")

/-- Embeds the fallback predicate of `generateMessage` (lines 102-105):
the base URL contains `openrouter.ai`, or the error status is 404, or
the error message matches `/responses/i`. -/
def likelyNeedsChatAPI (base : String) (error : JsError) : Bool :=
  strIncludes base "openrouter.ai" || (error.status == some 404) ||
    (match error.message with
     | some m => strIncludes (lowerStr m) "responses"
     | none => false)

/-- Embeds the catch block of `generateMessage` (lines 92-203): attempt
the Chat Completions fallback when the primary protocol looks
unavailable, otherwise (or if the fallback also fails) rethrow, turning
an `APIUserAbortError` into a `BytebotAgentInterrupt`. -/
def handleGenerateError (st : ServiceState) (o : Oracle) (error : JsError)
    (calls : List NetCall) : AgentOutcome × List NetCall × ServiceState :=
  let base := configBase st
  if likelyNeedsChatAPI base error then
    match o.fallbackResult with
    | .ok completion =>
      (.success (chatCompletionResponse completion), calls ++ [.fallbackCall], st)
    | .error _ =>
      if error.isAbort then (.interrupt, calls ++ [.fallbackCall], st)
      else (.failure error, calls ++ [.fallbackCall], st)
  else
    if error.isAbort then (.interrupt, calls, st)
    else (.failure error, calls, st)

/-- Embeds `generateMessage` (openai.service.ts lines 58-204) as a pure
function of the service state, the arguments and the provider's
behaviour.  It returns the outcome, the log of network calls issued,
and the (unmodified) service state. -/
def generateMessage (st : ServiceState) (systemPrompt : String)
    (messages : List Message) (useTools : Bool) (o : Oracle) :
    AgentOutcome × List NetCall × ServiceState :=
  let openaiMessages := formatMessagesForOpenAI messages
  let calls := [NetCall.primaryCall openaiMessages systemPrompt useTools]
  match o.primaryResult with
  | .ok response =>
    match formatOpenAIResponse response.output with
    | .ok blocks =>
      (.success
        { contentBlocks := blocks
          tokenUsage :=
            { inputTokens := jsOrNat (response.usage.bind ResponsesUsage.input_tokens)
              outputTokens := jsOrNat (response.usage.bind ResponsesUsage.output_tokens)
              totalTokens := jsOrNat (response.usage.bind ResponsesUsage.total_tokens) } },
       calls, st)
    | .error s => handleGenerateError st o (syntaxError s) calls
  | .error e => handleGenerateError st o e calls

/-! Specification-side descriptions of the two conversions, stated the
way the spec enumerates them (one list of produced items per block, one
list of produced blocks per item), to be compared with the accumulator
loops of the source. -/

/-- Items produced for one part of a tool-result block, as the spec
describes them. -/
def toolResultPartItems (tool_use_id : String) : MessageContentBlock → List ResponseInputItem
  | .text s => [.functionCallOutput tool_use_id s]
  | .image mt d =>
    [.functionCallOutput tool_use_id "screenshot",
     .message "user" [.inputImage "high" (dataUrl mt d)]]
  | _ => []

/-- Items produced for one content block of a non-user-action message,
as the spec describes them. -/
def blockRequestItems (role : Role) : MessageContentBlock → List ResponseInputItem
  | .text t =>
    if role = Role.USER then [.message "user" [.inputText t]]
    else [.message "assistant" [.outputText t]]
  | .toolUse id nm input =>
    if role = Role.ASSISTANT then [.functionCall id nm (jsonStringify input)] else []
  | .thinking th sig => [.reasoning sig th []]
  | .toolResult tuid parts => parts.flatMap (toolResultPartItems tuid)
  | b => [.message "user" [.inputText (Json.render (blockToJson b))]]

/-- Items produced for one block inside an all-user-action message. -/
def userActionItems : MessageContentBlock → List ResponseInputItem
  | .toolUse _ nm input => [.message "user" [.inputText (computerActionText nm input)]]
  | .image mt d => [.message "user" [.inputImage "high" (dataUrl mt d)]]
  | _ => []

/-- Items produced for one stored message. -/
def messageRequestItems (m : Message) : List ResponseInputItem :=
  if m.content.all isUserActionContentBlock then
    (m.content.flatMap userActionContent).flatMap userActionItems
  else
    m.content.flatMap (blockRequestItems m.role)

/-- Folding an accumulator-append step over a list appends the per-item
contributions in order. -/
theorem foldl_push_eq_flatMap {α β : Type} (g : List β → α → List β)
    (f : α → List β) (h : ∀ a x, g a x = a ++ f x) :
    ∀ (xs : List α) (a : List β), xs.foldl g a = a ++ xs.flatMap f := by
  intro xs
  induction xs with
  | nil => intro a; simp
  | cons x xs ih => intro a; simp [h, ih]

theorem pushToolResultPart_step (tuid : String) :
    ∀ acc part, pushToolResultPart tuid acc part = acc ++ toolResultPartItems tuid part := by
  intro acc part
  cases part <;> simp [pushToolResultPart, toolResultPartItems]

theorem pushUserActionBlock_step :
    ∀ acc block, pushUserActionBlock acc block = acc ++ userActionItems block := by
  intro acc block
  cases block <;> simp [pushUserActionBlock, userActionItems]

theorem pushBlock_step (role : Role) :
    ∀ acc block, pushBlock role acc block = acc ++ blockRequestItems role block := by
  intro acc block
  cases block with
  | text t =>
    by_cases hr : role = Role.USER <;> simp [pushBlock, blockRequestItems, hr]
  | toolUse id nm input =>
    by_cases hr : role = Role.ASSISTANT <;> simp [pushBlock, blockRequestItems, hr]
  | toolResult tuid parts =>
    simp [pushBlock, blockRequestItems,
      foldl_push_eq_flatMap _ _ (pushToolResultPart_step tuid)]
  | thinking th sig => rfl
  | image mt d => rfl
  | userAction c => rfl
  | unknown p => rfl

theorem pushMessage_step :
    ∀ acc m, pushMessage acc m = acc ++ messageRequestItems m := by
  intro acc m
  unfold pushMessage messageRequestItems
  by_cases h : m.content.all isUserActionContentBlock
  · simp [h, foldl_push_eq_flatMap _ _ pushUserActionBlock_step]
  · simp [h, foldl_push_eq_flatMap _ _ (pushBlock_step m.role)]

/-- Claim C1: for every input message list, `formatMessagesForOpenAI`
converts each typed content block into the provider request schema as
the spec enumerates it: per message the items are the concatenation of
per-block items (for messages that are not entirely user-action
blocks); a text block becomes a user `input_text` message when the
message role is USER and an assistant `output_text` message otherwise;
an assistant tool-use block becomes a `function_call` item carrying the
block id, name, and JSON-serialized input; a thinking block becomes a
`reasoning` item with id the signature and encrypted content the
thinking text; each text part of a tool-result block becomes a
`function_call_output` keyed by the block's `tool_use_id`; and each
image part becomes a `function_call_output` reading `screenshot`
followed by a user image message carrying the data URL. -/
theorem C1_formatMessages_request_schema :
    (∀ msgs, formatMessagesForOpenAI msgs = msgs.flatMap messageRequestItems)
    ∧ (∀ role blocks, blocks.all isUserActionContentBlock = false →
        messageRequestItems ⟨role, blocks⟩ = blocks.flatMap (blockRequestItems role))
    ∧ (∀ t, blockRequestItems Role.USER (.text t) = [.message "user" [.inputText t]])
    ∧ (∀ role t, role ≠ Role.USER →
        blockRequestItems role (.text t) = [.message "assistant" [.outputText t]])
    ∧ (∀ id nm input, blockRequestItems Role.ASSISTANT (.toolUse id nm input)
        = [.functionCall id nm (jsonStringify input)])
    ∧ (∀ role th sig, blockRequestItems role (.thinking th sig) = [.reasoning sig th []])
    ∧ (∀ role tuid parts, blockRequestItems role (.toolResult tuid parts)
        = parts.flatMap (toolResultPartItems tuid))
    ∧ (∀ tuid s, toolResultPartItems tuid (.text s) = [.functionCallOutput tuid s])
    ∧ (∀ tuid mt d, toolResultPartItems tuid (.image mt d)
        = [.functionCallOutput tuid "screenshot",
           .message "user" [.inputImage "high" (dataUrl mt d)]]) := by
  refine ⟨?_, ?_, ?_, ?_, ?_, ?_, ?_, ?_, ?_⟩
  · intro msgs
    simpa using foldl_push_eq_flatMap _ _ pushMessage_step msgs []
  · intro role blocks h
    simp [messageRequestItems, h]
  · intro t; simp [blockRequestItems]
  · intro role t h; simp [blockRequestItems, h]
  · intro id nm input; simp [blockRequestItems]
  · intro role th sig; rfl
  · intro role tuid parts; rfl
  · intro tuid s; rfl
  · intro tuid mt d; rfl

/-- Witness for C1: the two hypothetical conjuncts applied at concrete
inputs. -/
theorem C1_formatMessages_request_schema_witness :
    messageRequestItems ⟨Role.USER, [.text "hi"]⟩
      = [.message "user" [.inputText "hi"]]
    ∧ blockRequestItems Role.ASSISTANT (.text "a")
      = [.message "assistant" [.outputText "a"]] := by
  constructor
  · have h := C1_formatMessages_request_schema.2.1 Role.USER
      [MessageContentBlock.text "hi"] rfl
    rw [h]; rfl
  · exact C1_formatMessages_request_schema.2.2.2.1 Role.ASSISTANT "a" (by decide)

/-- Block produced for one content part of an output `message` item, as
the spec describes it. -/
def outputPartBlock : OutputContentPart → MessageContentBlock
  | .outputText t => .text t
  | .refusal r => .text ("Refusal: " ++ r)

/-- Blocks produced for an (optional) `encrypted_content` field: a
thinking block when the field is present and non-empty, nothing
otherwise. -/
def ecBlocks (id : String) (ec : Option String) : List MessageContentBlock :=
  match ec with
  | some s => if s != "" then [.thinking s id] else []
  | none => []

/-- Blocks produced for one response output item, as the spec describes
them (partial, because the `function_call` case parses its arguments
unguarded). -/
def outputItemBlocks : ResponseOutputItem → Except String (List MessageContentBlock)
  | .message content => .ok (content.map outputPartBlock)
  | .functionCall cid nm args => do
    let input ← jsonParse args
    .ok [.toolUse cid nm input]
  | .fileSearchCall id ec | .webSearchCall id ec | .computerCall id ec
  | .reasoning id ec => .ok (ecBlocks id ec)
  | .imageGenerationCall p | .codeInterpreterCall p | .localShellCall p
  | .mcpCall p | .mcpListTools p | .mcpApprovalRequest p =>
    .ok [.text (Json.render p)]
  | .unknown p => .ok [.text (Json.render p)]

/-- Specification-side description of the whole response conversion:
the per-item block lists concatenated in order, with the first parse
failure aborting the conversion. -/
def specResponseBlocks : List ResponseOutputItem → Except String (List MessageContentBlock)
  | [] => .ok []
  | item :: rest => do
    let bs ← outputItemBlocks item
    let more ← specResponseBlocks rest
    .ok (bs ++ more)

theorem except_bind_ok {ε α β : Type} (a : α) (f : α → Except ε β) :
    (Except.ok a >>= f) = f a := rfl

theorem except_bind_error {ε α β : Type} (e : ε) (f : α → Except ε β) :
    ((Except.error e : Except ε α) >>= f) = Except.error e := rfl

theorem flatMap_single {α β : Type} (f : α → β) :
    ∀ (l : List α), (l.flatMap fun x => [f x]) = l.map f := by
  intro l
  induction l with
  | nil => rfl
  | cons x xs ih => simp [ih]

theorem pushOutputPart_step :
    ∀ acc c, pushOutputPart acc c = acc ++ [outputPartBlock c] := by
  intro acc c
  cases c <;> rfl

theorem foldl_pushOutputPart (content : List OutputContentPart)
    (acc : List MessageContentBlock) :
    content.foldl pushOutputPart acc = acc ++ content.map outputPartBlock := by
  rw [foldl_push_eq_flatMap _ _ pushOutputPart_step, flatMap_single]

theorem pushOutputItem_step :
    ∀ acc item, pushOutputItem acc item
      = (outputItemBlocks item).map (fun bs => acc ++ bs) := by
  intro acc item
  cases item with
  | message content =>
    simp [pushOutputItem, outputItemBlocks, foldl_pushOutputPart, Except.map]
  | functionCall cid nm args => cases args <;> rfl
  | fileSearchCall id ec =>
    cases ec with
    | none => simp [pushOutputItem, outputItemBlocks, ecBlocks, optStrTruthy, Except.map]
    | some s =>
      by_cases hs : s = "" <;>
        simp [pushOutputItem, outputItemBlocks, ecBlocks, optStrTruthy, hs, Except.map]
  | webSearchCall id ec =>
    cases ec with
    | none => simp [pushOutputItem, outputItemBlocks, ecBlocks, optStrTruthy, Except.map]
    | some s =>
      by_cases hs : s = "" <;>
        simp [pushOutputItem, outputItemBlocks, ecBlocks, optStrTruthy, hs, Except.map]
  | computerCall id ec =>
    cases ec with
    | none => simp [pushOutputItem, outputItemBlocks, ecBlocks, optStrTruthy, Except.map]
    | some s =>
      by_cases hs : s = "" <;>
        simp [pushOutputItem, outputItemBlocks, ecBlocks, optStrTruthy, hs, Except.map]
  | reasoning id ec =>
    cases ec with
    | none => simp [pushOutputItem, outputItemBlocks, ecBlocks, optStrTruthy, Except.map]
    | some s =>
      by_cases hs : s = "" <;>
        simp [pushOutputItem, outputItemBlocks, ecBlocks, optStrTruthy, hs, Except.map]
  | imageGenerationCall p => rfl
  | codeInterpreterCall p => rfl
  | localShellCall p => rfl
  | mcpCall p => rfl
  | mcpListTools p => rfl
  | mcpApprovalRequest p => rfl
  | unknown p => rfl

theorem foldlM_pushOutputItem :
    ∀ (items : List ResponseOutputItem) (acc : List MessageContentBlock),
      List.foldlM pushOutputItem acc items
        = (specResponseBlocks items).map (fun bs => acc ++ bs) := by
  intro items
  induction items with
  | nil =>
    intro acc
    simp [specResponseBlocks, Except.map]
    rfl
  | cons item rest ih =>
    intro acc
    rw [List.foldlM_cons, pushOutputItem_step]
    cases h : outputItemBlocks item with
    | error e =>
      simp [specResponseBlocks, h, Except.map, except_bind_error]
    | ok bs =>
      cases hr : specResponseBlocks rest with
      | error e =>
        simp [specResponseBlocks, h, hr, Except.map, except_bind_ok,
          except_bind_error, ih]
      | ok more =>
        simp [specResponseBlocks, h, hr, Except.map, except_bind_ok, ih]

theorem formatOpenAIResponse_spec :
    ∀ items, formatOpenAIResponse items = specResponseBlocks items := by
  intro items
  unfold formatOpenAIResponse
  rw [foldlM_pushOutputItem]
  cases specResponseBlocks items <;> simp [Except.map]

/-- Claim C2: `formatOpenAIResponse` converts each output item back
into the internal representation: the whole conversion is the ordered
concatenation of per-item blocks; a `message` item yields one text
block per `text` part and one `Refusal: `-prefixed text block per
`refusal` part; a `function_call` item yields a tool-use block with the
item's `call_id`, name, and the JSON parse of its arguments; a
`reasoning` item with non-empty encrypted content yields a thinking
block carrying that content and the item's id as signature; an unknown
item yields a text block holding its JSON serialization. -/
theorem C2_formatResponse_to_blocks :
    (∀ items, formatOpenAIResponse items = specResponseBlocks items)
    ∧ (∀ content, outputItemBlocks (.message content) = .ok (content.map outputPartBlock))
    ∧ (∀ t, outputPartBlock (.outputText t) = .text t)
    ∧ (∀ r, outputPartBlock (.refusal r) = .text ("Refusal: " ++ r))
    ∧ (∀ cid nm args input, jsonParse args = .ok input →
        outputItemBlocks (.functionCall cid nm args) = .ok [.toolUse cid nm input])
    ∧ (∀ id s, s ≠ "" →
        outputItemBlocks (.reasoning id (some s)) = .ok [.thinking s id])
    ∧ (∀ p, outputItemBlocks (.unknown p) = .ok [.text (Json.render p)]) := by
  refine ⟨formatOpenAIResponse_spec, ?_, ?_, ?_, ?_, ?_, ?_⟩
  · intro content; rfl
  · intro t; rfl
  · intro r; rfl
  · intro cid nm args input h
    simp [outputItemBlocks, h, except_bind_ok]
  · intro id s hs
    simp [outputItemBlocks, ecBlocks, hs]
  · intro p; rfl

/-- Witness for C2: the two hypothetical conjuncts applied at concrete
inputs. -/
theorem C2_formatResponse_to_blocks_witness :
    outputItemBlocks (.functionCall "c1" (some "f") (JsonString.valid Json.null))
      = .ok [.toolUse "c1" (some "f") Json.null]
    ∧ outputItemBlocks (.reasoning "rid" (some "enc"))
      = .ok [.thinking "enc" "rid"] := by
  constructor
  · exact C2_formatResponse_to_blocks.2.2.2.2.1 "c1" (some "f")
      (JsonString.valid Json.null) Json.null rfl
  · exact C2_formatResponse_to_blocks.2.2.2.2.2.1 "rid" "enc" (by decide)

theorem formatOpenAIResponse_single :
    ∀ item, formatOpenAIResponse [item] = outputItemBlocks item := by
  intro item
  rw [formatOpenAIResponse_spec]
  cases h : outputItemBlocks item with
  | error e => simp [specResponseBlocks, h, except_bind_error]
  | ok bs => simp [specResponseBlocks, h, except_bind_ok]

/-- Recognises a block that is not a text block. -/
def nonTextBlock : MessageContentBlock → Bool
  | .text _ => false
  | _ => true

/-- Claim C10: `file_search_call`, `web_search_call` and `computer_call`
items are handled exactly as `reasoning` items — no block unless a
non-empty `encrypted_content` is carried, in which case a thinking
block — and never become text blocks, whereas `image_generation_call`
and the other unsupported tool-call items always become text blocks
holding their JSON serialization. -/
theorem C10_search_items_as_reasoning :
    ∀ (id : String) (ec : Option String) (p : Json),
    formatOpenAIResponse [.fileSearchCall id ec] = .ok (ecBlocks id ec)
    ∧ formatOpenAIResponse [.webSearchCall id ec] = .ok (ecBlocks id ec)
    ∧ formatOpenAIResponse [.computerCall id ec] = .ok (ecBlocks id ec)
    ∧ formatOpenAIResponse [.reasoning id ec] = .ok (ecBlocks id ec)
    ∧ (ecBlocks id ec).all nonTextBlock = true
    ∧ formatOpenAIResponse [.imageGenerationCall p] = .ok [.text (Json.render p)]
    ∧ formatOpenAIResponse [.codeInterpreterCall p] = .ok [.text (Json.render p)]
    ∧ formatOpenAIResponse [.localShellCall p] = .ok [.text (Json.render p)]
    ∧ formatOpenAIResponse [.mcpCall p] = .ok [.text (Json.render p)]
    ∧ formatOpenAIResponse [.mcpListTools p] = .ok [.text (Json.render p)]
    ∧ formatOpenAIResponse [.mcpApprovalRequest p] = .ok [.text (Json.render p)] := by
  intro id ec p
  refine ⟨?_, ?_, ?_, ?_, ?_, ?_, ?_, ?_, ?_, ?_, ?_⟩
    <;> first
    | (rw [formatOpenAIResponse_single]; rfl)
    | (cases ec with
       | none => rfl
       | some s => by_cases hs : s = "" <;> simp [ecBlocks, nonTextBlock, hs])

/-- Injection of the request-side input items that also exist on the
response side of the protocol (`function_call` and `reasoning`). -/
def reqItemToRespItem : ResponseInputItem → Option ResponseOutputItem
  | .functionCall cid nm args => some (.functionCall cid nm args)
  | .reasoning id ec _ => some (.reasoning id (some ec))
  | _ => none

/-- Claim C8: round trip between the internal representation and the
provider schema.  An assistant tool-use block converts to a
`function_call` item whose response-side counterpart converts back to
the same id, name and input; a thinking block with non-empty thinking
converts to a `reasoning` item whose response-side counterpart converts
back to the same thinking and signature. -/
theorem C8_round_trip :
    ∀ (id : String) (nm : Option String) (input : Json) (th sig : String),
    (formatMessagesForOpenAI [⟨Role.ASSISTANT, [.toolUse id nm input]⟩]
        = [.functionCall id nm (jsonStringify input)]
      ∧ reqItemToRespItem (.functionCall id nm (jsonStringify input))
        = some (.functionCall id nm (jsonStringify input))
      ∧ formatOpenAIResponse [ResponseOutputItem.functionCall id nm (jsonStringify input)]
        = .ok [.toolUse id nm input])
    ∧ (th ≠ "" →
      formatMessagesForOpenAI [⟨Role.ASSISTANT, [.thinking th sig]⟩]
          = [.reasoning sig th []]
        ∧ reqItemToRespItem (.reasoning sig th []) = some (.reasoning sig (some th))
        ∧ formatOpenAIResponse [ResponseOutputItem.reasoning sig (some th)]
          = .ok [.thinking th sig]) := by
  intro id nm input th sig
  constructor
  · refine ⟨?_, rfl, ?_⟩
    · simp [formatMessagesForOpenAI, pushMessage, isUserActionContentBlock, pushBlock]
    · rw [formatOpenAIResponse_single]; rfl
  · intro hth
    refine ⟨?_, rfl, ?_⟩
    · simp [formatMessagesForOpenAI, pushMessage, isUserActionContentBlock, pushBlock]
    · rw [formatOpenAIResponse_single]
      simp [outputItemBlocks, ecBlocks, hth]

/-- Witness for C8: the thinking round trip at a concrete non-empty
thinking text. -/
theorem C8_round_trip_witness :
    formatMessagesForOpenAI [⟨Role.ASSISTANT, [.thinking "t" "s"]⟩]
      = [.reasoning "s" "t" []]
    ∧ formatOpenAIResponse [ResponseOutputItem.reasoning "s" (some "t")]
      = .ok [.thinking "t" "s"] := by
  have h := (C8_round_trip "i" none Json.null "t" "s").2 (by decide)
  exact ⟨h.1, h.2.2⟩

theorem jsOrNat_eq_getD : ∀ x : Option Nat, jsOrNat x = x.getD 0 := by
  intro x
  cases x <;> rfl

theorem handle_state (st : ServiceState) (o : Oracle) (e : JsError)
    (calls : List NetCall) : (handleGenerateError st o e calls).2.2 = st := by
  unfold handleGenerateError
  by_cases h : likelyNeedsChatAPI (configBase st) e
  · cases hf : o.fallbackResult with
    | ok _c => simp [h, hf]
    | error e2 => by_cases ha : e.isAbort <;> simp [h, hf, ha]
  · by_cases ha : e.isAbort <;> simp [h, ha]

theorem handle_calls (st : ServiceState) (o : Oracle) (e : JsError) (c : NetCall) :
    (handleGenerateError st o e [c]).2.1 = [c]
    ∨ (handleGenerateError st o e [c]).2.1 = [c, .fallbackCall] := by
  unfold handleGenerateError
  by_cases h : likelyNeedsChatAPI (configBase st) e
  · cases hf : o.fallbackResult with
    | ok completion => right; simp [h, hf]
    | error e2 => by_cases ha : e.isAbort <;> (right; simp [h, hf, ha])
  · by_cases ha : e.isAbort <;> (left; simp [h, ha])

theorem generateMessage_calls (st : ServiceState) (sys : String)
    (msgs : List Message) (ut : Bool) (o : Oracle) :
    (generateMessage st sys msgs ut o).2.1
      = [.primaryCall (formatMessagesForOpenAI msgs) sys ut]
    ∨ (generateMessage st sys msgs ut o).2.1
      = [.primaryCall (formatMessagesForOpenAI msgs) sys ut, .fallbackCall] := by
  cases hp : o.primaryResult with
  | ok response =>
    cases hf : formatOpenAIResponse response.output with
    | ok blocks => left; simp [generateMessage, hp, hf]
    | error s =>
      have h := handle_calls st o (syntaxError s)
        (.primaryCall (formatMessagesForOpenAI msgs) sys ut)
      simpa [generateMessage, hp, hf] using h
  | error e =>
    have h := handle_calls st o e
      (.primaryCall (formatMessagesForOpenAI msgs) sys ut)
    simpa [generateMessage, hp] using h

/-- Claim C5: each invocation of `generateMessage` issues at most one
primary call, at most one fallback call, and at most two network
requests in total. -/
theorem C5_at_most_two_calls :
    ∀ (st : ServiceState) (sys : String) (msgs : List Message) (ut : Bool) (o : Oracle),
    ((generateMessage st sys msgs ut o).2.1.filter isPrimaryNetCall).length ≤ 1
    ∧ ((generateMessage st sys msgs ut o).2.1.filter isFallbackNetCall).length ≤ 1
    ∧ (generateMessage st sys msgs ut o).2.1.length ≤ 2 := by
  intro st sys msgs ut o
  rcases generateMessage_calls st sys msgs ut o with h | h <;>
    rw [h] <;> simp [isPrimaryNetCall, isFallbackNetCall]

/-- Claim C3: whenever the primary call fails and the failure indicates
the primary protocol is unavailable (base URL contains `openrouter.ai`,
or status 404, or message matching `/responses/i`), exactly one
fallback Chat Completions attempt is made — whatever that attempt
returns — and if the attempt succeeds its result is returned instead of
an error being thrown. -/
theorem C3_chat_fallback :
    ∀ (st : ServiceState) (sys : String) (msgs : List Message) (ut : Bool)
      (o : Oracle) (e : JsError),
    o.primaryResult = .error e →
    (strIncludes (configBase st) "openrouter.ai" = true
      ∨ e.status = some 404
      ∨ ∃ m, e.message = some m ∧ strIncludes (lowerStr m) "responses" = true) →
    ((generateMessage st sys msgs ut o).2.1.filter isFallbackNetCall).length = 1
    ∧ (∀ completion, o.fallbackResult = .ok completion →
        (generateMessage st sys msgs ut o).1
          = .success (chatCompletionResponse completion)) := by
  intro st sys msgs ut o e h1 h2
  have hlike : likelyNeedsChatAPI (configBase st) e = true := by
    unfold likelyNeedsChatAPI
    rcases h2 with h | h | ⟨m, hm, hmm⟩
    · simp [h]
    · simp [h]
    · simp [hm, hmm]
  constructor
  · cases hf : o.fallbackResult with
    | ok completion =>
      simp [generateMessage, handleGenerateError, h1, hlike, hf, isFallbackNetCall,
        isPrimaryNetCall]
    | error e2 =>
      by_cases ha : e.isAbort <;>
        simp [generateMessage, handleGenerateError, h1, hlike, hf, ha,
          isFallbackNetCall, isPrimaryNetCall]
  · intro completion hf
    unfold generateMessage handleGenerateError
    simp [h1, hlike, hf]

/-- Witness for C3: the fallback path taken end to end through an
OpenRouter base URL. -/
theorem C3_chat_fallback_witness :
    ((generateMessage ⟨some "https://openrouter.ai/api/v1", none, none⟩ "" [] true
        ⟨.error ⟨none, none, false⟩, .ok ⟨none, none⟩⟩).2.1.filter isFallbackNetCall).length
      = 1
    ∧ (generateMessage ⟨some "https://openrouter.ai/api/v1", none, none⟩ "" [] true
        ⟨.error ⟨none, none, false⟩, .ok ⟨none, none⟩⟩).1
      = .success (chatCompletionResponse ⟨none, none⟩) := by
  have h := C3_chat_fallback ⟨some "https://openrouter.ai/api/v1", none, none⟩ "" [] true
    ⟨.error ⟨none, none, false⟩, .ok ⟨none, none⟩⟩ ⟨none, none, false⟩
    rfl (Or.inl (by decide))
  exact ⟨h.1, h.2 ⟨none, none⟩ rfl⟩

/-- Claim C4: when the caught error is an `APIUserAbortError` and no
fallback attempt returns successfully, `generateMessage` throws
`BytebotAgentInterrupt` rather than returning a result or rethrowing
the raw error. -/
theorem C4_abort_interrupt :
    ∀ (st : ServiceState) (sys : String) (msgs : List Message) (ut : Bool)
      (o : Oracle) (e : JsError),
    o.primaryResult = .error e → e.isAbort = true →
    (likelyNeedsChatAPI (configBase st) e = true →
      ∀ c, o.fallbackResult ≠ .ok c) →
    (generateMessage st sys msgs ut o).1 = .interrupt := by
  intro st sys msgs ut o e h1 h2 h3
  unfold generateMessage handleGenerateError
  by_cases hl : likelyNeedsChatAPI (configBase st) e
  · cases hf : o.fallbackResult with
    | ok c => exact absurd hf (h3 hl c)
    | error e2 => simp [h1, hl, hf, h2]
  · simp [h1, hl, h2]

/-- Witness for C4: an aborted primary call with no fallback condition
met yields the interrupt outcome. -/
theorem C4_abort_interrupt_witness :
    (generateMessage ⟨none, none, none⟩ "" [] true
        ⟨.error ⟨none, none, true⟩, .error ⟨none, none, false⟩⟩).1
      = .interrupt :=
  C4_abort_interrupt ⟨none, none, none⟩ "" [] true
    ⟨.error ⟨none, none, true⟩, .error ⟨none, none, false⟩⟩ ⟨none, none, true⟩
    rfl rfl (fun _ _c hc => Except.noConfusion hc)

theorem handle_success (st : ServiceState) (o : Oracle) (e : JsError)
    (calls : List NetCall) (r : BytebotAgentResponse) :
    (handleGenerateError st o e calls).1 = .success r →
    ∃ completion, o.fallbackResult = .ok completion
      ∧ r = chatCompletionResponse completion := by
  unfold handleGenerateError
  by_cases h : likelyNeedsChatAPI (configBase st) e
  · cases hf : o.fallbackResult with
    | ok completion =>
      intro hs
      simp [h, hf] at hs
      exact ⟨completion, rfl, hs.symm⟩
    | error e2 =>
      by_cases ha : e.isAbort <;> (intro hs; simp [h, hf, ha] at hs)
  · by_cases ha : e.isAbort <;> (intro hs; simp [h, ha] at hs)

/-- Claim C6: on every successful invocation, the returned token usage
is a pass-through of the provider-reported counts with 0 substituted
for absent counts — on the primary path from the Responses usage, on
the fallback path from the Chat Completions usage.  The last conjunct
settles every successful invocation: any returned success either comes
from a successful primary call whose output converted cleanly, with the
Responses usage passed through, or carries the result of a successful
fallback call, with the Chat Completions usage passed through (this
includes the path where the primary call succeeds, the conversion
throws on invalid `function_call` arguments, and the fallback runs). -/
theorem C6_token_passthrough :
    ∀ (st : ServiceState) (sys : String) (msgs : List Message) (ut : Bool) (o : Oracle),
    (∀ resp blocks, o.primaryResult = .ok resp →
      formatOpenAIResponse resp.output = .ok blocks →
      (generateMessage st sys msgs ut o).1 = .success
        { contentBlocks := blocks
          tokenUsage :=
            { inputTokens := (resp.usage.bind ResponsesUsage.input_tokens).getD 0
              outputTokens := (resp.usage.bind ResponsesUsage.output_tokens).getD 0
              totalTokens := (resp.usage.bind ResponsesUsage.total_tokens).getD 0 } })
    ∧ (∀ e completion, o.primaryResult = .error e →
        likelyNeedsChatAPI (configBase st) e = true →
        o.fallbackResult = .ok completion →
        (generateMessage st sys msgs ut o).1 = .success (chatCompletionResponse completion)
        ∧ (chatCompletionResponse completion).tokenUsage
          = { inputTokens := (completion.usage.bind ChatUsage.prompt_tokens).getD 0
              outputTokens := (completion.usage.bind ChatUsage.completion_tokens).getD 0
              totalTokens := (completion.usage.bind ChatUsage.total_tokens).getD 0 })
    ∧ (∀ r, (generateMessage st sys msgs ut o).1 = .success r →
        (∃ resp, o.primaryResult = .ok resp
          ∧ formatOpenAIResponse resp.output = .ok r.contentBlocks
          ∧ r.tokenUsage
            = { inputTokens := (resp.usage.bind ResponsesUsage.input_tokens).getD 0
                outputTokens := (resp.usage.bind ResponsesUsage.output_tokens).getD 0
                totalTokens := (resp.usage.bind ResponsesUsage.total_tokens).getD 0 })
        ∨ (∃ completion, o.fallbackResult = .ok completion
          ∧ r = chatCompletionResponse completion
          ∧ r.tokenUsage
            = { inputTokens := (completion.usage.bind ChatUsage.prompt_tokens).getD 0
                outputTokens := (completion.usage.bind ChatUsage.completion_tokens).getD 0
                totalTokens := (completion.usage.bind ChatUsage.total_tokens).getD 0 })) := by
  intro st sys msgs ut o
  refine ⟨?_, ?_, ?_⟩
  · intro resp blocks h1 h2
    unfold generateMessage
    simp [h1, h2, jsOrNat_eq_getD]
  · intro e completion h1 h2 h3
    constructor
    · unfold generateMessage handleGenerateError
      simp [h1, h2, h3]
    · simp [chatCompletionResponse, jsOrNat_eq_getD]
  · intro r hr
    cases hp : o.primaryResult with
    | ok resp =>
      cases hfo : formatOpenAIResponse resp.output with
      | ok blocks =>
        left
        simp [generateMessage, hp, hfo] at hr
        refine ⟨resp, rfl, ?_, ?_⟩
        · rw [← hr]
          simpa using hfo
        · rw [← hr]
          simp [jsOrNat_eq_getD]
      | error s =>
        right
        have hr2 : (handleGenerateError st o (syntaxError s)
            [.primaryCall (formatMessagesForOpenAI msgs) sys ut]).1 = .success r := by
          simpa [generateMessage, hp, hfo] using hr
        obtain ⟨completion, hf, hrc⟩ := handle_success st o (syntaxError s) _ r hr2
        refine ⟨completion, hf, hrc, ?_⟩
        rw [hrc]
        simp [chatCompletionResponse, jsOrNat_eq_getD]
    | error e =>
      right
      have hr2 : (handleGenerateError st o e
          [.primaryCall (formatMessagesForOpenAI msgs) sys ut]).1 = .success r := by
        simpa [generateMessage, hp] using hr
      obtain ⟨completion, hf, hrc⟩ := handle_success st o e _ r hr2
      refine ⟨completion, hf, hrc, ?_⟩
      rw [hrc]
      simp [chatCompletionResponse, jsOrNat_eq_getD]

/-- Witness for C6: the primary-path conjunct at a concrete response
with a partially reported usage, and the fallback conjunct at a
concrete completion reached through a primary failure. -/
theorem C6_token_passthrough_witness :
    ((generateMessage ⟨none, none, none⟩ "" [] true
        ⟨.ok ⟨[], some ⟨some 7, none, some 9⟩⟩, .error ⟨none, none, false⟩⟩).1
      = .success
        { contentBlocks := []
          tokenUsage := { inputTokens := 7, outputTokens := 0, totalTokens := 9 } })
    ∧ ((generateMessage ⟨some "openrouter.ai", none, none⟩ "" [] true
        ⟨.error ⟨none, none, false⟩, .ok ⟨none, some ⟨some 3, some 4, some 7⟩⟩⟩).1
      = .success (chatCompletionResponse ⟨none, some ⟨some 3, some 4, some 7⟩⟩)
    ∧ (chatCompletionResponse
        (⟨none, some ⟨some 3, some 4, some 7⟩⟩ : ChatCompletion)).tokenUsage
      = { inputTokens := 3, outputTokens := 4, totalTokens := 7 }) := by
  constructor
  · exact (C6_token_passthrough ⟨none, none, none⟩ "" [] true
      ⟨.ok ⟨[], some ⟨some 7, none, some 9⟩⟩, .error ⟨none, none, false⟩⟩).1
      ⟨[], some ⟨some 7, none, some 9⟩⟩ [] rfl rfl
  · exact (C6_token_passthrough ⟨some "openrouter.ai", none, none⟩ "" [] true
      ⟨.error ⟨none, none, false⟩, .ok ⟨none, some ⟨some 3, some 4, some 7⟩⟩⟩).2.1
      ⟨none, none, false⟩ ⟨none, some ⟨some 3, some 4, some 7⟩⟩ rfl (by decide) rfl

/-- Claim C7: `generateMessage` leaves the service state unchanged, and
two invocations with identical arguments and identical provider
responses return identical results. -/
theorem C7_state_unchanged :
    ∀ (st : ServiceState) (sys : String) (msgs : List Message) (ut : Bool) (o : Oracle),
    (generateMessage st sys msgs ut o).2.2 = st
    ∧ (∀ st2 o2, st2 = st → o2 = o →
        generateMessage st2 sys msgs ut o2 = generateMessage st sys msgs ut o) := by
  intro st sys msgs ut o
  constructor
  · cases hp : o.primaryResult with
    | ok response =>
      cases hf : formatOpenAIResponse response.output with
      | ok blocks => simp [generateMessage, hp, hf]
      | error s => simp [generateMessage, hp, hf, handle_state]
    | error e => simp [generateMessage, hp, handle_state]
  · intro st2 o2 h1 h2
    rw [h1, h2]

/-- Witness for C7: the determinism conjunct applied at identical
concrete arguments. -/
theorem C7_state_unchanged_witness :
    (generateMessage ⟨none, none, none⟩ "" [] true
        ⟨.error ⟨none, none, true⟩, .error ⟨none, none, false⟩⟩).2.2
      = ⟨none, none, none⟩
    ∧ generateMessage ⟨none, none, none⟩ "" [] true
        ⟨.error ⟨none, none, true⟩, .error ⟨none, none, false⟩⟩
      = generateMessage ⟨none, none, none⟩ "" [] true
        ⟨.error ⟨none, none, true⟩, .error ⟨none, none, false⟩⟩ := by
  have h := C7_state_unchanged ⟨none, none, none⟩ "" [] true
    ⟨.error ⟨none, none, true⟩, .error ⟨none, none, false⟩⟩
  exact ⟨h.1, h.2 _ _ rfl rfl⟩

/-- Claim C9: in the fallback path, malformed tool-call arguments never
make `generateMessage` fail: absent or invalid arguments still produce
a tool-use block with empty-object input, the block id falling back
from the call id to the function name to the literal `tool_call`; by
contrast the primary path parses `function_call` arguments unguarded,
so an invalid arguments string there aborts the conversion. -/
theorem C9_fallback_malformed_args :
    (∀ tc : ChatToolCall, tc.function.bind ChatFunction.arguments = none →
      chatToolCallBlock tc
        = .toolUse (jsOrS tc.id (jsOrS (tc.function.bind ChatFunction.name) "tool_call"))
            (tc.function.bind ChatFunction.name) (Json.obj []))
    ∧ (∀ (tc : ChatToolCall) (s : String),
        tc.function.bind ChatFunction.arguments = some (.invalid s) →
        chatToolCallBlock tc
          = .toolUse (jsOrS tc.id (jsOrS (tc.function.bind ChatFunction.name) "tool_call"))
              (tc.function.bind ChatFunction.name) (Json.obj []))
    ∧ (∀ (cid : String) (nm : Option String) (s : String),
        formatOpenAIResponse [.functionCall cid nm (.invalid s)] = .error s)
    ∧ (∀ (st : ServiceState) (sys : String) (msgs : List Message) (ut : Bool)
        (o : Oracle) (e : JsError) (completion : ChatCompletion),
        o.primaryResult = .error e →
        likelyNeedsChatAPI (configBase st) e = true →
        o.fallbackResult = .ok completion →
        (generateMessage st sys msgs ut o).1
          = .success (chatCompletionResponse completion)) := by
  refine ⟨?_, ?_, ?_, ?_⟩
  · intro tc h
    simp [chatToolCallBlock, h]
  · intro tc s h
    by_cases hs : s = "" <;>
      simp [chatToolCallBlock, h, jsonStringTruthy, jsonParse, hs]
  · intro cid nm s
    rw [formatOpenAIResponse_single]
    rfl
  · intro st sys msgs ut o e completion h1 h2 h3
    unfold generateMessage handleGenerateError
    simp [h1, h2, h3]

/-- Witness for C9: a tool call with an invalid arguments string and an
absent id still yields a tool-use block with empty input, named after
the function. -/
theorem C9_fallback_malformed_args_witness :
    chatToolCallBlock ⟨none, some ⟨some "fn", some (.invalid "oops")⟩⟩
      = .toolUse "fn" (some "fn") (Json.obj [])
    ∧ formatOpenAIResponse
        [.functionCall "c" (some "fn") (JsonString.invalid "oops")] = .error "oops" := by
  constructor
  · have h := C9_fallback_malformed_args.2.1
      ⟨none, some ⟨some "fn", some (.invalid "oops")⟩⟩ "oops" rfl
    simpa [jsOrS] using h
  · exact C9_fallback_malformed_args.2.2.1 "c" (some "fn") "oops"

end BytebotOpenAI
